import Mathlib

/-!
Shallow embedding of the mycheesebot repository (three JavaScript source
files) and proofs of the frozen claims about it.

Source files embedded:
* src/publish.js — zip upload over HTTP PUT with a response handler;
* src/dialogs/greeting/userProfile.js — the UserProfile constructor;
* src/dialogs/greeting/greeting.js — a five-step waterfall dialog that
  collects name, city and phone, with prompt validators.

JavaScript strings are modelled as Lean `String` (uppercasing is the
ASCII-level `Char.toUpper`, which agrees with JavaScript `toUpperCase`
on all inputs appearing in the claims), `undefined`-able values as
`Option`, and JS truthiness explicitly where the source relies on it.
-/

namespace MyCheeseBot

/-! ## src/dialogs/greeting/userProfile.js

JavaScript values as far as the UserProfile constructor distinguishes
them: `undefined`, `null`, strings and (integer) numbers.  The
constructor stores `arg || undefined` for each field, so only the
truthiness of the argument matters.
-/

inductive JSVal where
  | undefinedVal : JSVal
  | null : JSVal
  | str (s : String) : JSVal
  | num (n : Int) : JSVal
deriving DecidableEq, Repr

/-- JavaScript truthiness on the modelled values: `undefined`, `null`,
the empty string and `0` are falsy, everything else is truthy. -/
def JSVal.truthy : JSVal → Bool
  | .undefinedVal => false
  | .null => false
  | .str s => !(s == "")
  | .num n => !(n == 0)

/-- The JavaScript expression `v || undefined`. -/
def JSVal.orUndef (v : JSVal) : JSVal :=
  if v.truthy then v else .undefinedVal

/-- The record produced by the `UserProfile` constructor
(src/dialogs/greeting/userProfile.js lines 7-13). -/
structure UserProfile where
  name : JSVal
  city : JSVal
  phone : JSVal
deriving DecidableEq, Repr

/-- `new UserProfile(name, city, phone)`: each field is
`arg || undefined` (src/dialogs/greeting/userProfile.js lines 8-10). -/
def UserProfile.make (name city phone : JSVal) : UserProfile :=
  { name := name.orUndef, city := city.orUndef, phone := phone.orUndef }

/-! ## src/publish.js

The `uploadZip` function wires a PUT request and installs a `response`
handler and an `error` handler.  We embed the request configuration as
data and the two handlers as a function from the observed HTTP event to
the observable outcome: whether `fs.unlink(zipPath)` ran and with which
argument (if any) the callback was invoked.
-/

/-- Basic-auth block passed to `request.put` (src/publish.js lines 14-18). -/
structure RequestAuth where
  username : String
  password : String
  sendImmediately : Bool
deriving DecidableEq, Repr

/-- The PUT request configuration of `uploadZip`
(src/publish.js lines 13-21). -/
structure PutRequestConfig where
  url : String
  auth : Option RequestAuth
  contentTypeHeader : String
deriving DecidableEq, Repr

def kuduApi : String := "https://mycheesebot.scm.azurewebsites.net/api/zip/site/wwwroot"

def userName : String := "$mycheesebot"

def password : String := "R0l3a4zGnq7LxuQNPFuNYGLi3clWSJ2WqahnNl9cTRxcb08vJ5ktxvfPMXSl"

/-- The one request `uploadZip` issues: PUT to `kuduApi` with basic
auth and the header `Content-Type: applicaton/zip` exactly as spelled
in src/publish.js line 20. -/
def uploadRequest : PutRequestConfig :=
  { url := kuduApi
    auth := some { username := userName, password := password, sendImmediately := true }
    contentTypeHeader := "applicaton/zip" }

/-- Argument the `uploadZip` callback is invoked with. -/
inductive CallbackArg where
  | nullArg : CallbackArg
  | respArg (statusCode : Nat) : CallbackArg
  | errArg (message : String) : CallbackArg
deriving DecidableEq, Repr

/-- Observable outcome of one HTTP event inside `uploadZip`:
whether the local archive was unlinked, and the callback invocation
(`none` when the callback never runs). -/
structure UploadOutcome where
  archiveDeleted : Bool
  callback : Option CallbackArg
deriving DecidableEq, Repr

/-- The `response` handler of `uploadZip` (src/publish.js lines 23-30):
2xx unlinks the archive and calls back with `null`; status `>= 400`
calls back with the response; any other status falls through both
branches, so nothing happens. -/
def handleResponse (statusCode : Nat) : UploadOutcome :=
  if 200 ≤ statusCode ∧ statusCode < 300 then
    { archiveDeleted := true, callback := some .nullArg }
  else if 400 ≤ statusCode then
    { archiveDeleted := false, callback := some (.respArg statusCode) }
  else
    { archiveDeleted := false, callback := none }

/-- One HTTP event observed by `uploadZip`: either a response with a
status code, or a transport error. -/
inductive HttpEvent where
  | response (statusCode : Nat) : HttpEvent
  | transportError (message : String) : HttpEvent
deriving DecidableEq, Repr

/-- Dispatch of the two handlers installed by `uploadZip`
(src/publish.js lines 23-33): the `error` handler calls back with the
error and touches no file. -/
def handleEvent : HttpEvent → UploadOutcome
  | .response c => handleResponse c
  | .transportError e => { archiveDeleted := false, callback := some (.errArg e) }

/-! ## src/dialogs/greeting/greeting.js

The dialog operates on a user profile whose three fields are either
`undefined` or a string: `Option String` here.  Each waterfall step is
embedded as a pure function from the profile (and, where the source
reads it, `step.result`) to the updated profile together with the
action the step takes: issue a prompt, fall through via `step.next()`,
or send the greeting summary and end the dialog.
-/

/-- The profile record as the greeting dialog sees it: each field is
a string or `undefined`. -/
structure Profile where
  name : Option String
  city : Option String
  phone : Option String
deriving DecidableEq, Repr

/-- `new UserProfile()` with no arguments: all three fields `undefined`. -/
def Profile.empty : Profile := { name := none, city := none, phone := none }

/-- JavaScript truthiness of a string-or-undefined field: `undefined`
and the empty string are falsy. -/
def truthyOpt : Option String → Bool
  | none => false
  | some s => !(s == "")

/-- `s.charAt(0).toUpperCase() + s.substr(1)` (greeting.js lines 118,
133, 155): first character uppercased, remainder unchanged; the empty
string maps to itself. -/
def capitalize (s : String) : String :=
  match s.data with
  | [] => ""
  | c :: cs => String.mk (c.toUpper :: cs)

def NAME_LENGTH_MIN : Nat := 2

/-- Prompt identifiers registered in the constructor
(greeting.js lines 20-22). -/
inductive PromptId where
  | namePrompt : PromptId
  | cityPrompt : PromptId
  | phonePrompt : PromptId
deriving DecidableEq, Repr

/-- What a waterfall step does after updating the profile. -/
inductive StepAction where
  | promptUser (id : PromptId) (message : String) : StepAction
  | next : StepAction
  | endWithGreeting (message : String) : StepAction
deriving DecidableEq, Repr

/-- Result of running one waterfall step: the profile as stored back
through the accessor, and the action taken. -/
structure StepResult where
  profile : Profile
  action : StepAction
deriving DecidableEq, Repr

def namePromptMsg : String := "이름이 뭐에요??"

def phonePromptMsg : String := "번호가 뭐에요??"

/-- Rendering of a possibly-undefined field inside a template literal:
JavaScript prints `undefined` for a missing value. -/
def optShow : Option String → String
  | none => "undefined"
  | some s => s

def cityPromptMsg (nameField : Option String) : String :=
  "안녕하세요. " ++ optShow nameField ++ "! 어디 살아요? "

/-- The summary template of `greetUser` (greeting.js line 194). -/
def greetMessage (p : Profile) : String :=
  "안녕. " ++ optShow p.name ++ ", " ++ optShow p.city ++
    "사는군요. 나도 거기 사는데! 전화해도 되죠? " ++ optShow p.phone

/-- `greetUser` (greeting.js lines 191-197): send the summary and end
the dialog. -/
def greetUser (p : Profile) : StepResult :=
  { profile := p, action := .endWithGreeting (greetMessage p) }

/-- `initializeStateStep` (greeting.js lines 72-82): if the store holds
no profile, install the caller-supplied one from `step.options` when
present, else a fresh empty profile; then `step.next()`. -/
def initializeStateStep (store : Option Profile) (options : Option Profile) : Profile :=
  match store with
  | some p => p
  | none =>
    match options with
    | some up => up
    | none => Profile.empty

/-- `promptForNameStep` (greeting.js lines 91-103): with all three
fields defined, greet and end; with a falsy name, prompt for the name;
otherwise `step.next()`. -/
def promptForNameStep (p : Profile) : StepResult :=
  if p.name ≠ none ∧ p.city ≠ none ∧ p.phone ≠ none then
    greetUser p
  else if !(truthyOpt p.name) then
    { profile := p, action := .promptUser .namePrompt namePromptMsg }
  else
    { profile := p, action := .next }

/-- The field update shared by steps 3-5 (greeting.js lines 115-120,
130-135, 152-157): when the field is `undefined` and `step.result` is
truthy, store the capitalized result; otherwise leave the field as is. -/
def storeCapitalized (field : Option String) (result : Option String) : Option String :=
  match field with
  | some v => some v
  | none =>
    match result with
    | none => none
    | some s => if s == "" then none else some (capitalize s)

/-- `promptForCityStep` (greeting.js lines 112-126): save a freshly
prompted name, then prompt for the city when it is falsy, else
`step.next()`. -/
def promptForCityStep (p : Profile) (result : Option String) : StepResult :=
  let p1 : Profile := { p with name := storeCapitalized p.name result }
  if !(truthyOpt p1.city) then
    { profile := p1, action := .promptUser .cityPrompt (cityPromptMsg p1.name) }
  else
    { profile := p1, action := .next }

/-- `promptForPhoneStep` (greeting.js lines 127-141): save a freshly
prompted city, then prompt for the phone when it is falsy, else
`step.next()`. -/
def promptForPhoneStep (p : Profile) (result : Option String) : StepResult :=
  let p1 : Profile := { p with city := storeCapitalized p.city result }
  if !(truthyOpt p1.phone) then
    { profile := p1, action := .promptUser .phonePrompt phonePromptMsg }
  else
    { profile := p1, action := .next }

/-- `displayGreetingStep` (greeting.js lines 149-159): save a freshly
prompted phone, then greet and end. -/
def displayGreetingStep (p : Profile) (result : Option String) : StepResult :=
  let p1 : Profile := { p with phone := storeCapitalized p.phone result }
  greetUser p1

def nameLengthViolationMsg : String := "이름이 너무 짧은데요?  2자 이상 넣어주세요."

/-- JavaScript `String.prototype.trim`, modelled at the ASCII level:
strip leading and trailing whitespace characters. -/
def jsTrim (s : String) : String :=
  String.mk (((s.data.dropWhile Char.isWhitespace).reverse.dropWhile
    Char.isWhitespace).reverse)

/-- `validateName` (greeting.js lines 165-174): trim
`recognized.value || ""` and compare against `NAME_LENGTH_MIN`.  The
Bool is the validation verdict; the list holds the activity the
validator sends on failure. -/
def validateName (value : Option String) : Bool × List String :=
  let v := jsTrim (match value with | none => "" | some s => s)
  if NAME_LENGTH_MIN ≤ v.length then
    (true, [])
  else
    (false, [nameLengthViolationMsg])

/-- `validateCity` (greeting.js lines 180-182): always succeeds. -/
def validateCity (_value : Option String) : Bool × List String := (true, [])

/-- `validatePhone` (greeting.js lines 183-185): always succeeds. -/
def validatePhone (_value : Option String) : Bool × List String := (true, [])

/-- Validator registered for each prompt id (greeting.js lines 57-59). -/
def validatorFor : PromptId → Option String → Bool × List String
  | .namePrompt => validateName
  | .cityPrompt => validateCity
  | .phonePrompt => validatePhone

/-! ### Waterfall execution

The `WaterfallDialog` runs the five registered steps in order; a step
returning `step.next()` passes `undefined` as the next step's
`step.result`, a step issuing `step.prompt` suspends the flow until an
answer arrives, and the `TextPrompt` machinery re-sends the original
prompt text after a failed validation (no retry prompt is configured).
-/

/-- A suspended or finished run of the waterfall. -/
inductive FlowState where
  | suspended (stepIdx : Nat) (id : PromptId) (promptText : String) (p : Profile) : FlowState
  | ended (p : Profile) (finalMessage : String) : FlowState
deriving DecidableEq, Repr

/-- Interpret a step result at step index `i`: a prompt suspends the
flow (to resume at `i + 1`), `step.next()` continues with the supplied
continuation, greeting ends the dialog. -/
def interpretAction (i : Nat) (res : StepResult) (onNext : Profile → FlowState) : FlowState :=
  match res.action with
  | .promptUser id m => .suspended i id m res.profile
  | .next => onNext res.profile
  | .endWithGreeting m => .ended res.profile m

/-- Run the waterfall from step 5 (`displayGreetingStep`, the last
registered step; running off the end of a waterfall ends the dialog). -/
def runFrom5 (p : Profile) (result : Option String) : FlowState :=
  interpretAction 5 (displayGreetingStep p result) (fun q => .ended q "")

/-- Run the waterfall from step 4 (`promptForPhoneStep`). -/
def runFrom4 (p : Profile) (result : Option String) : FlowState :=
  interpretAction 4 (promptForPhoneStep p result) (fun q => runFrom5 q none)

/-- Run the waterfall from step 3 (`promptForCityStep`). -/
def runFrom3 (p : Profile) (result : Option String) : FlowState :=
  interpretAction 3 (promptForCityStep p result) (fun q => runFrom4 q none)

/-- Run the waterfall from step 2 (`promptForNameStep`; the source
never reads `step.result` there). -/
def runFrom2 (p : Profile) : FlowState :=
  interpretAction 2 (promptForNameStep p) (fun q => runFrom3 q none)

/-- Resume the waterfall at step index `i` with `step.result`. -/
def resumeAt (i : Nat) (p : Profile) (result : Option String) : FlowState :=
  match i with
  | 2 => runFrom2 p
  | 3 => runFrom3 p result
  | 4 => runFrom4 p result
  | 5 => runFrom5 p result
  | _ => .ended p ""

/-- Start the flow: step 1 (`initializeStateStep`) resolves the stored
profile, then `step.next()` enters step 2 with no result. -/
def startFlow (store : Option Profile) (options : Option Profile) : FlowState :=
  runFrom2 (initializeStateStep store options)

/-- Deliver one user answer to a suspended flow.  The `TextPrompt` runs
the registered validator: on success the waterfall resumes at the next
step with the answer as `step.result`; on failure the validator's
activity is sent, the original prompt text is re-sent, and the flow
stays suspended at the same prompt.  Returned are the activities sent
during the turn and the new flow state. -/
def feedAnswer (st : FlowState) (answer : String) : List String × FlowState :=
  match st with
  | .ended p m => ([], .ended p m)
  | .suspended i id promptText p =>
    match validatorFor id (some answer) with
    | (true, msgs) => (msgs, resumeAt (i + 1) p (some answer))
    | (false, msgs) => (msgs ++ [promptText], .suspended i id promptText p)

/-- Run the whole collection flow: start it, then deliver the answers
in order, accumulating the activities sent along the way. -/
def runFlow (store : Option Profile) (options : Option Profile)
    (answers : List String) : List String × FlowState :=
  answers.foldl
    (fun acc a =>
      let step := feedAnswer acc.2 a
      (acc.1 ++ step.1, step.2))
    ([], startFlow store options)

/-! ### Substring containment (for the summary-message claims) -/

/-- Whether `pat` is a leading run of `s`. -/
def listStarts : List Char → List Char → Bool
  | [], _ => true
  | _ :: _, [] => false
  | p :: ps, c :: cs => p == c && listStarts ps cs

/-- Whether `pat` occurs contiguously inside `s`. -/
def listHasInfix (pat : List Char) : List Char → Bool
  | [] => listStarts pat []
  | c :: cs => listStarts pat (c :: cs) || listHasInfix pat cs

/-- Whether the string `pat` occurs contiguously inside the string `s`. -/
def containsSub (s pat : String) : Bool :=
  listHasInfix pat.data s.data

/-! ## Helper lemmas -/

/-- Whatever branch `promptForCityStep` takes, the stored profile is
the input profile with the name field run through `storeCapitalized`. -/
theorem promptForCityStep_profile (p : Profile) (r : Option String) :
    (promptForCityStep p r).profile = { p with name := storeCapitalized p.name r } := by
  unfold promptForCityStep
  dsimp only
  split <;> rfl

/-- Whatever branch `promptForPhoneStep` takes, the stored profile is
the input profile with the city field run through `storeCapitalized`. -/
theorem promptForPhoneStep_profile (p : Profile) (r : Option String) :
    (promptForPhoneStep p r).profile = { p with city := storeCapitalized p.city r } := by
  unfold promptForPhoneStep
  dsimp only
  split <;> rfl

/-- `displayGreetingStep` stores the input profile with the phone field
run through `storeCapitalized`. -/
theorem displayGreetingStep_profile (p : Profile) (r : Option String) :
    (displayGreetingStep p r).profile = { p with phone := storeCapitalized p.phone r } := by
  rfl

/-- `promptForNameStep` never modifies the profile. -/
theorem promptForNameStep_profile (p : Profile) :
    (promptForNameStep p).profile = p := by
  unfold promptForNameStep
  split
  · rfl
  · split <;> rfl

/-- An already-defined field is left untouched by `storeCapitalized`. -/
theorem storeCapitalized_some (v : String) (r : Option String) :
    storeCapitalized (some v) r = some v := rfl

/-- A missing field is filled with the capitalized answer whenever the
answer is a nonempty string. -/
theorem storeCapitalized_none (s : String) (hs : s ≠ "") :
    storeCapitalized none (some s) = some (capitalize s) := by
  have hbeq : (s == "") = false := beq_eq_false_iff_ne.mpr hs
  simp [storeCapitalized, hbeq]

/-! ## Claims -/

/-- C1: running the collection flow on an initially empty profile with
answers "bob", "seoul" and "5551234" ends the dialog with a summary
message containing "Bob", "Seoul" and "5551234". -/
theorem flow_empty_bob_seoul_phone_summary :
    (runFlow none none ["bob", "seoul", "5551234"]).2 =
      FlowState.ended { name := some "Bob", city := some "Seoul", phone := some "5551234" }
        "안녕. Bob, Seoul사는군요. 나도 거기 사는데! 전화해도 되죠? 5551234" ∧
    containsSub "안녕. Bob, Seoul사는군요. 나도 거기 사는데! 전화해도 되죠? 5551234" "Bob" = true ∧
    containsSub "안녕. Bob, Seoul사는군요. 나도 거기 사는데! 전화해도 되죠? 5551234" "Seoul" = true ∧
    containsSub "안녕. Bob, Seoul사는군요. 나도 거기 사는데! 전화해도 되죠? 5551234" "5551234" = true :=
  ⟨by decide, by decide, by decide, by decide⟩

/-- C4: a 2xx response deletes the archive and invokes the callback
with `null`; a response with status at least 400 leaves the archive and
invokes the callback with the response; a transport error invokes the
callback with the error and leaves the archive. -/
theorem uploadZip_response_outcomes (code : Nat) (e : String) :
    (200 ≤ code → code < 300 →
      handleEvent (.response code) = { archiveDeleted := true, callback := some .nullArg }) ∧
    (400 ≤ code →
      handleEvent (.response code) =
        { archiveDeleted := false, callback := some (.respArg code) }) ∧
    handleEvent (.transportError e) =
      { archiveDeleted := false, callback := some (.errArg e) } := by
  refine ⟨?_, ?_, rfl⟩
  · intro h1 h2
    simp [handleEvent, handleResponse, h1, h2]
  · intro h
    have hno : ¬(200 ≤ code ∧ code < 300) := by omega
    simp [handleEvent, handleResponse, hno, h]

/-- Witness for C4 at statuses 200 and 404 and a concrete error. -/
theorem uploadZip_response_outcomes_witness :
    handleEvent (.response 200) = { archiveDeleted := true, callback := some .nullArg } ∧
    handleEvent (.response 404) = { archiveDeleted := false, callback := some (.respArg 404) } ∧
    handleEvent (.transportError "ECONNRESET") =
      { archiveDeleted := false, callback := some (.errArg "ECONNRESET") } :=
  ⟨(uploadZip_response_outcomes 200 "ECONNRESET").1 (by decide) (by decide),
   (uploadZip_response_outcomes 404 "ECONNRESET").2.1 (by decide),
   (uploadZip_response_outcomes 200 "ECONNRESET").2.2⟩

/-- C8 counterexample: the Content-Type header of the PUT request is
not "application/zip" — the source spells it "applicaton/zip". -/
theorem uploadRequest_contentType_not_application_zip :
    uploadRequest.contentTypeHeader ≠ "application/zip" := by decide

/-- C8 (amended): the PUT request carries basic-auth credentials and
the Content-Type header with the source's value "applicaton/zip". -/
theorem uploadRequest_auth_and_contentType :
    uploadRequest.auth =
      some { username := userName, password := password, sendImmediately := true } ∧
    uploadRequest.contentTypeHeader = "applicaton/zip" :=
  ⟨rfl, rfl⟩

/-- C9: a 3xx response falls through both handler branches — the
callback never runs and the archive stays on disk. -/
theorem uploadZip_3xx_no_callback (code : Nat) (h3 : 300 ≤ code) (h4 : code < 400) :
    handleEvent (.response code) = { archiveDeleted := false, callback := none } := by
  have hno : ¬(200 ≤ code ∧ code < 300) := by omega
  have hno4 : ¬(400 ≤ code) := by omega
  simp [handleEvent, handleResponse, hno, hno4]

/-- Witness for C9 at status 302. -/
theorem uploadZip_3xx_no_callback_witness :
    handleEvent (.response 302) = { archiveDeleted := false, callback := none } :=
  uploadZip_3xx_no_callback 302 (by decide) (by decide)

/-- C10: the UserProfile constructor stores `undefined` for each falsy
argument (`undefined`, `null`, the empty string, `0`) and stores a
truthy argument unchanged. -/
theorem userProfile_constructor_fields (a b c : JSVal) :
    (JSVal.truthy .undefinedVal = false ∧ JSVal.truthy .null = false ∧
      JSVal.truthy (.str "") = false ∧ JSVal.truthy (.num 0) = false) ∧
    (a.truthy = false → (UserProfile.make a b c).name = .undefinedVal) ∧
    (a.truthy = true → (UserProfile.make a b c).name = a) ∧
    (b.truthy = false → (UserProfile.make a b c).city = .undefinedVal) ∧
    (b.truthy = true → (UserProfile.make a b c).city = b) ∧
    (c.truthy = false → (UserProfile.make a b c).phone = .undefinedVal) ∧
    (c.truthy = true → (UserProfile.make a b c).phone = c) := by
  refine ⟨⟨rfl, rfl, by decide, by decide⟩, ?_, ?_, ?_, ?_, ?_, ?_⟩ <;>
    · intro h
      simp [UserProfile.make, JSVal.orUndef, h]

/-- Witness for C10 on one truthy and one falsy argument per field. -/
theorem userProfile_constructor_fields_witness :
    (UserProfile.make (.str "bob") .null (.num 7)).name = .str "bob" ∧
    (UserProfile.make (.str "bob") .null (.num 7)).city = .undefinedVal ∧
    (UserProfile.make (.str "bob") .null (.num 7)).phone = .num 7 ∧
    (UserProfile.make .undefinedVal (.str "") (.num 0)).name = .undefinedVal := by
  have h1 := userProfile_constructor_fields (.str "bob") .null (.num 7)
  have h2 := userProfile_constructor_fields .undefinedVal (.str "") (.num 0)
  exact ⟨h1.2.2.1 (by decide), h1.2.2.2.1 (by decide),
    h1.2.2.2.2.2.2 (by decide), h2.2.1 (by decide)⟩

/-- C2: the name validator succeeds exactly when the trimmed input has
at least `NAME_LENGTH_MIN` (= 2) characters; at the name prompt a
failing answer sends the length-violation message and re-asks the same
name question, while a succeeding answer resumes the waterfall at the
city step with the answer as the step result. -/
theorem validateName_iff_and_flow (p : Profile) (a : String) :
    ((validateName (some a)).1 = true ↔ NAME_LENGTH_MIN ≤ (jsTrim a).length) ∧
    ((jsTrim a).length < NAME_LENGTH_MIN →
      feedAnswer (.suspended 2 .namePrompt namePromptMsg p) a =
        ([nameLengthViolationMsg, namePromptMsg],
          .suspended 2 .namePrompt namePromptMsg p)) ∧
    (NAME_LENGTH_MIN ≤ (jsTrim a).length →
      feedAnswer (.suspended 2 .namePrompt namePromptMsg p) a =
        ([], runFrom3 p (some a))) := by
  refine ⟨?_, ?_, ?_⟩
  · unfold validateName
    dsimp only
    split
    case isTrue h => simpa using h
    case isFalse h => simpa using h
  · intro h
    have hno : ¬(NAME_LENGTH_MIN ≤ (jsTrim a).length) := by omega
    simp [feedAnswer, validatorFor, validateName, hno]
  · intro h
    simp [feedAnswer, validatorFor, validateName, h, resumeAt]

/-- Witness for C2 at the failing answer "x" and the passing answer
"bob". -/
theorem validateName_iff_and_flow_witness :
    ((jsTrim "x").length < NAME_LENGTH_MIN ∧
      feedAnswer (.suspended 2 .namePrompt namePromptMsg Profile.empty) "x" =
        ([nameLengthViolationMsg, namePromptMsg],
          .suspended 2 .namePrompt namePromptMsg Profile.empty)) ∧
    (NAME_LENGTH_MIN ≤ (jsTrim "bob").length ∧
      feedAnswer (.suspended 2 .namePrompt namePromptMsg Profile.empty) "bob" =
        ([], runFrom3 Profile.empty (some "bob"))) :=
  ⟨⟨by decide, (validateName_iff_and_flow Profile.empty "x").2.1 (by decide)⟩,
   ⟨by decide, (validateName_iff_and_flow Profile.empty "bob").2.2 (by decide)⟩⟩

/-- C3: when name, city and phone are all defined, the name step sends
the summary and ends the dialog — its action is `endWithGreeting`, not
a prompt. -/
theorem promptForNameStep_complete_greets (p : Profile)
    (hn : p.name ≠ none) (hc : p.city ≠ none) (hp : p.phone ≠ none) :
    promptForNameStep p =
      { profile := p, action := .endWithGreeting (greetMessage p) } := by
  unfold promptForNameStep
  rw [if_pos ⟨hn, hc, hp⟩]
  rfl

/-- Witness for C3 on a fully populated profile. -/
theorem promptForNameStep_complete_greets_witness :
    promptForNameStep { name := some "Bob", city := some "Seoul", phone := some "5551234" } =
      { profile := { name := some "Bob", city := some "Seoul", phone := some "5551234" },
        action := .endWithGreeting
          (greetMessage { name := some "Bob", city := some "Seoul", phone := some "5551234" }) } :=
  promptForNameStep_complete_greets
    { name := some "Bob", city := some "Seoul", phone := some "5551234" }
    (by decide) (by decide) (by decide)

/-- C5: whenever a step stores a freshly prompted answer into a missing
field, the stored value is the raw input with its first character
uppercased and the remainder unchanged; in particular "alice" is stored
as "Alice". -/
theorem stored_answers_capitalized (p : Profile) (s : String) (hs : s ≠ "") :
    (p.name = none →
      ((promptForCityStep p (some s)).profile).name = some (capitalize s)) ∧
    (p.city = none →
      ((promptForPhoneStep p (some s)).profile).city = some (capitalize s)) ∧
    (p.phone = none →
      ((displayGreetingStep p (some s)).profile).phone = some (capitalize s)) ∧
    (∀ (c : Char) (cs : List Char), s.data = c :: cs →
      capitalize s = String.mk (c.toUpper :: cs)) ∧
    capitalize "alice" = "Alice" := by
  refine ⟨?_, ?_, ?_, ?_, by decide⟩
  · intro h
    rw [promptForCityStep_profile, h, storeCapitalized_none s hs]
  · intro h
    rw [promptForPhoneStep_profile, h, storeCapitalized_none s hs]
  · intro h
    rw [displayGreetingStep_profile, h, storeCapitalized_none s hs]
  · intro c cs h
    unfold capitalize
    rw [h]

/-- Witness for C5 at the input "alice" on an empty profile. -/
theorem stored_answers_capitalized_witness :
    ((promptForCityStep Profile.empty (some "alice")).profile).name = some (capitalize "alice") ∧
    ((promptForPhoneStep Profile.empty (some "alice")).profile).city = some (capitalize "alice") ∧
    ((displayGreetingStep Profile.empty (some "alice")).profile).phone = some (capitalize "alice") ∧
    capitalize "alice" = "Alice" := by
  have h := stored_answers_capitalized Profile.empty "alice" (by decide)
  exact ⟨h.1 rfl, h.2.1 rfl, h.2.2.1 rfl, h.2.2.2.2⟩

/-- C6: no step clears or overwrites a field that is already defined:
the initialize step leaves an existing profile untouched, the name step
never writes the profile, and each saving step only fills its own field
when that field is `undefined`, leaving the other two fields as they
were. -/
theorem steps_preserve_populated_fields (p : Profile) (r : Option String)
    (opts : Option Profile) (v : String) :
    initializeStateStep (some p) opts = p ∧
    (promptForNameStep p).profile = p ∧
    (p.name = some v → ((promptForCityStep p r).profile).name = some v) ∧
    ((promptForCityStep p r).profile).city = p.city ∧
    ((promptForCityStep p r).profile).phone = p.phone ∧
    (p.city = some v → ((promptForPhoneStep p r).profile).city = some v) ∧
    ((promptForPhoneStep p r).profile).name = p.name ∧
    ((promptForPhoneStep p r).profile).phone = p.phone ∧
    (p.phone = some v → ((displayGreetingStep p r).profile).phone = some v) ∧
    ((displayGreetingStep p r).profile).name = p.name ∧
    ((displayGreetingStep p r).profile).city = p.city := by
  refine ⟨rfl, promptForNameStep_profile p, ?_, ?_, ?_, ?_, ?_, ?_, ?_, ?_, ?_⟩
  · intro h
    rw [promptForCityStep_profile, h, storeCapitalized_some]
  · rw [promptForCityStep_profile]
  · rw [promptForCityStep_profile]
  · intro h
    rw [promptForPhoneStep_profile, h, storeCapitalized_some]
  · rw [promptForPhoneStep_profile]
  · rw [promptForPhoneStep_profile]
  · intro h
    rw [displayGreetingStep_profile, h, storeCapitalized_some]
  · rw [displayGreetingStep_profile]
  · rw [displayGreetingStep_profile]

/-- Witness for C6 on a fully populated profile and a fresh answer. -/
theorem steps_preserve_populated_fields_witness :
    ((promptForCityStep { name := some "A", city := some "A", phone := some "A" }
      (some "zz")).profile).name = some "A" ∧
    ((promptForPhoneStep { name := some "A", city := some "A", phone := some "A" }
      (some "zz")).profile).city = some "A" ∧
    ((displayGreetingStep { name := some "A", city := some "A", phone := some "A" }
      (some "zz")).profile).phone = some "A" := by
  have h := steps_preserve_populated_fields
    { name := some "A", city := some "A", phone := some "A" } (some "zz") none "A"
  exact ⟨h.2.2.1 rfl, h.2.2.2.2.2.1 rfl, h.2.2.2.2.2.2.2.2.1 rfl⟩

/-- C7 counterexample: the profile with name set to the empty string
and city and phone undefined has its name field set (not `undefined`),
yet the name step issues the name prompt — it neither skips the name
prompt nor reaches the city prompt. -/
theorem name_set_empty_string_reprompts_name :
    (Profile.mk (some "") none none).name ≠ none ∧
    promptForNameStep { name := some "", city := none, phone := none } =
      { profile := { name := some "", city := none, phone := none },
        action := .promptUser .namePrompt namePromptMsg } :=
  ⟨by decide, by decide⟩

/-- C7 (amended): for every profile whose name is set to a nonempty
string while city and phone are undefined, the name step advances via
`step.next()` without prompting, and the flow's next prompt is the city
prompt. -/
theorem name_set_skips_to_city_prompt (p : Profile) (n : String)
    (hn : p.name = some n) (hne : n ≠ "") (hc : p.city = none) (hp : p.phone = none) :
    promptForNameStep p = { profile := p, action := .next } ∧
    runFrom2 p = .suspended 3 .cityPrompt (cityPromptMsg (some n)) p := by
  obtain ⟨pn, pc, pp⟩ := p
  simp only [Profile.mk.injEq] at hn hc hp
  subst hn
  subst hc
  subst hp
  have hbeq : (n == "") = false := beq_eq_false_iff_ne.mpr hne
  constructor
  · simp [promptForNameStep, truthyOpt, hbeq]
  · simp [runFrom2, runFrom3, interpretAction, promptForNameStep, promptForCityStep,
      storeCapitalized, truthyOpt, hbeq]

/-- Witness for C7 on the profile with only name = "Bob" set. -/
theorem name_set_skips_to_city_prompt_witness :
    promptForNameStep { name := some "Bob", city := none, phone := none } =
      { profile := { name := some "Bob", city := none, phone := none }, action := .next } ∧
    runFrom2 { name := some "Bob", city := none, phone := none } =
      .suspended 3 .cityPrompt (cityPromptMsg (some "Bob"))
        { name := some "Bob", city := none, phone := none } :=
  name_set_skips_to_city_prompt { name := some "Bob", city := none, phone := none }
    "Bob" rfl (by decide) rfl rfl

end MyCheeseBot
